import Mathlib

/-!
# Verification of the change-invisible-time processor and the
# query-consumer-offset request header of rocketmq-rust

Shallow embedding of
`rocketmq-broker/src/processor/change_invisible_time_processor.rs` and
`rocketmq-remoting/src/protocol/header/query_consumer_offset_request_header.rs`.
External collaborators (message store, ack-merge buffer, escape bridge,
statistics counters) are modelled as oracle inputs in an environment record;
side effects are tracked explicitly in an effects record.  Log remark strings
are abbreviated to stable prefixes except where a claim inspects them.
-/

namespace RocketMQ

/-! ## Decimal printing and parsing

Models Rust's `i32::to_string` / `str::parse` used by the wire map of
`QueryConsumerOffsetRequestHeader` and by the extra-info token getters. -/

/-- The ASCII digit character for a value `0 ≤ n ≤ 9`. -/
def digitChar (n : Nat) : Char := Char.ofNat (48 + n)

/-- The digit value of an ASCII digit character, if it is one. -/
def charDigit (c : Char) : Option Nat :=
  if 48 ≤ c.toNat ∧ c.toNat ≤ 57 then some (c.toNat - 48) else none

/-- Most-significant-first decimal digit characters of a natural number. -/
def natDigits (n : Nat) : List Char :=
  if _h : n < 10 then [digitChar n]
  else natDigits (n / 10) ++ [digitChar (n % 10)]
  termination_by n
  decreasing_by exact Nat.div_lt_self (by omega) (by omega)

/-- Decimal rendering of a natural number, as Rust's `to_string`. -/
def natToStr (n : Nat) : String := String.mk (natDigits n)

/-- Decimal rendering of a signed integer, as Rust's `i64/i32 to_string`. -/
def intToStr (i : Int) : String :=
  if i < 0 then String.mk (Char.ofNat 45 :: natDigits i.natAbs) else natToStr i.natAbs

/-- Left fold of decimal digits onto an accumulator; `none` on a non-digit. -/
def parseAcc (acc : Nat) : List Char → Option Nat
  | [] => some acc
  | c :: cs =>
    match charDigit c with
    | none => none
    | some d => parseAcc (acc * 10 + d) cs

/-- Parse a non-empty all-digit character list as a natural number. -/
def parseNatChars (l : List Char) : Option Nat :=
  match l with
  | [] => none
  | _ :: _ => parseAcc 0 l

/-- Parse an optional leading minus or plus sign followed by decimal
digits, as the unbounded core of Rust's signed-integer `parse`. -/
def parseIntChars (l : List Char) : Option Int :=
  match l with
  | c :: cs =>
    if c.toNat = 45 then Option.map (fun n : Nat => -(n : Int)) (parseNatChars cs)
    else if c.toNat = 43 then Option.map (fun n : Nat => (n : Int)) (parseNatChars cs)
    else Option.map (fun n : Nat => (n : Int)) (parseNatChars l)
  | [] => none

/-- `str::parse::<i64>`-style parse (unbounded variant used by extra-info
token getters; the i64 range plays no role in the verified claims). -/
def parseIntStr (s : String) : Option Int := parseIntChars s.data

/-- `str::parse::<i32>`: decimal parse with the two's-complement 32-bit
range check. -/
def parseI32 (s : String) : Option Int :=
  match parseIntChars s.data with
  | none => none
  | some v => if -2147483648 ≤ v ∧ v ≤ 2147483647 then some v else none

/-- `bool::to_string`. -/
def boolToStr (b : Bool) : String := if b then "true" else "false"

/-- `str::parse::<bool>`. -/
def parseBoolStr (s : String) : Option Bool :=
  if s = "true" then some true else if s = "false" then some false else none

/-! ## The string-keyed wire map

Models `HashMap<CheetahString, CheetahString>`: the header codecs only
insert, look up, and merge (`extend`), so a lookup function suffices. -/

/-- A string-keyed map of string values, as a lookup function. -/
def Map : Type := String → Option String

/-- The empty map (`HashMap::new`). -/
def Map.empty : Map := fun _ => none

/-- `HashMap::insert`: later inserts overwrite earlier ones. -/
def Map.insert (m : Map) (k v : String) : Map :=
  fun x => if x = k then some v else m x

/-- `HashMap::get` (cloned value). -/
def Map.get? (m : Map) (k : String) : Option String := m k

/-- `HashMap::extend`: entries of the second map overwrite the first. -/
def Map.extend (m other : Map) : Map :=
  fun x => (other x).elim (m x) some

/-! ## TopicRequestHeader (embedded routing sub-header) -/

/-- Modelled from the spec: the `TopicRequestHeader` / `RpcRequestHeader`
types live outside the examined sources.  §6 of the spec describes them as
"an embedded generic topic-routing sub-header (namespace, broker name,
oneway flag, etc.) merged into the same map — unrecognized keys are ignored
on decode, absent optional keys decode to unset". -/
structure TopicRequestHeader where
  lo : Option Bool
  namespace_v : Option String
  namespaced : Option Bool
  broker_name : Option String
  oneway : Option Bool
deriving Repr, DecidableEq

namespace TopicRequestHeader

/-- Modelled from the spec: the sub-header's own map entries, one wire key
per optional field, with absent fields omitted.  Its keys are disjoint from
the four `QueryConsumerOffsetRequestHeader` keys. -/
def to_map (t : TopicRequestHeader) : Map := fun k =>
  if k = "lo" then Option.map boolToStr t.lo
  else if k = "namespace" then t.namespace_v
  else if k = "namespaced" then Option.map boolToStr t.namespaced
  else if k = "brokerName" then t.broker_name
  else if k = "oneway" then Option.map boolToStr t.oneway
  else none

/-- Modelled from the spec: decoding the sub-header never fails — absent
optional keys decode to unset, malformed boolean values decode to unset. -/
def from_map (m : Map) : TopicRequestHeader :=
  { lo := (m.get? "lo").bind parseBoolStr
    namespace_v := m.get? "namespace"
    namespaced := (m.get? "namespaced").bind parseBoolStr
    broker_name := m.get? "brokerName"
    oneway := (m.get? "oneway").bind parseBoolStr }

end TopicRequestHeader

/-! ## QueryConsumerOffsetRequestHeader

From `rocketmq-remoting/src/protocol/header/query_consumer_offset_request_header.rs`. -/

structure QueryConsumerOffsetRequestHeader where
  consumer_group : String
  topic : String
  queue_id : Int
  set_zero_if_not_found : Option Bool
  topic_request_header : Option TopicRequestHeader
deriving Repr, DecidableEq

namespace QueryConsumerOffsetRequestHeader

def CONSUMER_GROUP : String := "consumerGroup"
def TOPIC : String := "topic"
def QUEUE_ID : String := "queueId"
def SET_ZERO_IF_NOT_FOUND : String := "setZeroIfNotFound"

/-- `CommandCustomHeader::to_map`. -/
def to_map (h : QueryConsumerOffsetRequestHeader) : Map :=
  let m := Map.empty
  let m := m.insert CONSUMER_GROUP h.consumer_group
  let m := m.insert TOPIC h.topic
  let m := m.insert QUEUE_ID (intToStr h.queue_id)
  let m :=
    match h.set_zero_if_not_found with
    | some value => m.insert SET_ZERO_IF_NOT_FOUND (boolToStr value)
    | none => m
  match h.topic_request_header with
  | some value => m.extend value.to_map
  | none => m

/-- Outcome of a fallible Rust decode that may also panic (`unwrap`). -/
inductive DecodeOutcome (α : Type) where
  | ok (a : α)
  | err (e : String)
  | panic
deriving Repr, DecidableEq

/-- `FromMap::from`.  The `queueId` value, when present, is parsed with
`parse::<i32>().unwrap()`: an unparsable value panics.  All other fields
are defaulted when absent (`unwrap_or_default`, `map_or(0, ...)`,
`and_then(...ok())`). -/
def from_map (m : Map) : DecodeOutcome QueryConsumerOffsetRequestHeader :=
  match m.get? QUEUE_ID with
  | some value =>
    match parseI32 value with
    | none => .panic
    | some q =>
      .ok { consumer_group := (m.get? CONSUMER_GROUP).getD ""
            topic := (m.get? TOPIC).getD ""
            queue_id := q
            set_zero_if_not_found := (m.get? SET_ZERO_IF_NOT_FOUND).bind parseBoolStr
            topic_request_header := some (TopicRequestHeader.from_map m) }
  | none =>
      .ok { consumer_group := (m.get? CONSUMER_GROUP).getD ""
            topic := (m.get? TOPIC).getD ""
            queue_id := 0
            set_zero_if_not_found := (m.get? SET_ZERO_IF_NOT_FOUND).bind parseBoolStr
            topic_request_header := some (TopicRequestHeader.from_map m) }

end QueryConsumerOffsetRequestHeader

/-! ## Store and response status enumerations -/

/-- `rocketmq_store::base::message_status_enum::PutMessageStatus` (the
variants named by the processor's two match expressions, plus
representative hard-failure variants covered by its wildcard arms). -/
inductive PutMessageStatus where
  | putOk
  | flushDiskTimeout
  | flushSlaveTimeout
  | slaveNotAvailable
  | serviceNotAvailable
  | createMappedFileFailed
  | messageIllegal
  | propertiesSizeExceeded
  | osPageCacheBusy
  | unknownError
deriving Repr, DecidableEq

/-- Display name of a store status, as the `Debug`/`Display` text
interpolated into the handler's `SystemError` remark. -/
def PutMessageStatus.toText : PutMessageStatus → String
  | .putOk => "PutOk"
  | .flushDiskTimeout => "FlushDiskTimeout"
  | .flushSlaveTimeout => "FlushSlaveTimeout"
  | .slaveNotAvailable => "SlaveNotAvailable"
  | .serviceNotAvailable => "ServiceNotAvailable"
  | .createMappedFileFailed => "CreateMappedFileFailed"
  | .messageIllegal => "MessageIllegal"
  | .propertiesSizeExceeded => "PropertiesSizeExceeded"
  | .osPageCacheBusy => "OsPageCacheBusy"
  | .unknownError => "UnknownError"

/-- The checkpoint-append acceptance test of `process_request_inner`
(lines 210–214): the four listed statuses fall through the empty match arm,
everything else takes the wildcard arm. -/
def ckStatusAcceptable : PutMessageStatus → Bool
  | .putOk | .flushDiskTimeout | .flushSlaveTimeout | .slaveNotAvailable => true
  | _ => false

/-- The durable-acknowledgment acceptance test of `ack_origin`
(lines 296–301): as the checkpoint test but additionally accepting
`ServiceNotAvailable`; a failing status is only logged. -/
def ackPutStatusAcceptable : PutMessageStatus → Bool
  | .putOk | .flushDiskTimeout | .flushSlaveTimeout | .slaveNotAvailable
  | .serviceNotAvailable => true
  | _ => false

/-- `rocketmq_remoting::code::response_code::ResponseCode` (the codes the
processor can return). -/
inductive ResponseCode where
  | success
  | topicNotExist
  | messageIllegal
  | noMessage
  | systemError
deriving Repr, DecidableEq

/-! ## Extra-info codec -/

/-- Split a character list at ASCII spaces (the token delimiter). -/
def splitTokens (l : List Char) (cur : List Char) : List (List Char) :=
  match l with
  | [] => [cur.reverse]
  | c :: cs =>
    if c.toNat = 32 then cur.reverse :: splitTokens cs []
    else splitTokens cs (c :: cur)

namespace ExtraInfoUtil

/-- Modelled from the spec: `ExtraInfoUtil` lives outside the examined
sources.  §4.2 describes the extra-info wire format as "a fixed-order,
delimiter-joined token sequence (each token corresponding to one field)";
§3 fixes the field order as is_order, revive_queue_id, broker_name,
checkpoint_queue_offset, pop_time, invisible_time.  `split` fails on an
empty input and otherwise yields the delimiter-separated tokens. -/
def split (s : String) : Except String (List String) :=
  if s = "" then .error "extra info is empty"
  else .ok ((splitTokens s.data []).map String.mk)

/-- Modelled from the spec: the ordering flag is the first token; the query
is infallible in the source (used without `?`). -/
def is_order (l : List String) : Bool := l.get? 0 == some "true"

/-- Fetch the token at a fixed position, failing if it is absent. -/
def getToken (l : List String) (i : Nat) (fieldName : String) :
    Except String String :=
  match l.get? i with
  | none => .error ("extra info field missing: " ++ fieldName)
  | some s => .ok s

/-- Fetch the token at a fixed position and parse it as an integer, failing
if it is absent or malformed. -/
def getIntToken (l : List String) (i : Nat) (fieldName : String) :
    Except String Int :=
  match l.get? i with
  | none => .error ("extra info field missing: " ++ fieldName)
  | some s =>
    match parseIntStr s with
    | none => .error ("extra info field malformed: " ++ fieldName)
    | some v => .ok v

/-- Modelled from the spec: the revive-queue-id getter (token 1). -/
def get_revive_qid (l : List String) : Except String Int :=
  getIntToken l 1 "reviveQueueId"

/-- Modelled from the spec: the broker-name getter (token 2). -/
def get_broker_name (l : List String) : Except String String :=
  getToken l 2 "brokerName"

/-- Modelled from the spec: the checkpoint-queue-offset getter (token 3). -/
def get_ck_queue_offset (l : List String) : Except String Int :=
  getIntToken l 3 "ckQueueOffset"

/-- Modelled from the spec: the pop-time getter (token 4). -/
def get_pop_time (l : List String) : Except String Int :=
  getIntToken l 4 "popTime"

/-- Modelled from the spec: the invisible-time getter (token 5). -/
def get_invisible_time (l : List String) : Except String Int :=
  getIntToken l 5 "invisibleTime"

end ExtraInfoUtil

/-! ## Processor data model -/

/-- `PopAckConstants::ACK_TAG`, the constant acknowledgment marker tag. -/
def ACK_TAG : String := "ack"

/-- `rocketmq_store::pop::ack_msg::AckMsg` as built by `ack_origin`. -/
structure AckMsg where
  ack_offset : Int
  start_offset : Int
  consumer_group : String
  topic : String
  queue_id : Int
  pop_time : Int
  broker_name : String
deriving Repr, DecidableEq

/-- Modelled from the spec: `PopMessageProcessor::gen_ack_unique_id` lives
outside the examined sources.  §9 specifies "a pure hash/format function
over (topic, queue_id, pop_time, broker_name) used for downstream
idempotent dedup", realised here as a stable serialization. -/
def gen_ack_unique_id (a : AckMsg) : String :=
  a.topic ++ "@" ++ intToStr a.queue_id ++ "@" ++ intToStr a.pop_time ++ "@"
    ++ a.broker_name ++ "@" ++ ACK_TAG

/-- Rust's `as u64` cast of an `i64` value (two's-complement wrap). -/
def intAsU64 (i : Int) : Nat := (i % (2 ^ 64 : Int)).toNat

/-- `ChangeInvisibleTimeRequestHeader` (the decoded request header). -/
structure ChangeInvisibleTimeRequestHeader where
  consumer_group : String
  topic : String
  queue_id : Int
  offset : Int
  invisible_time : Int
  extra_info : String
deriving Repr, DecidableEq

/-- `ChangeInvisibleTimeResponseHeader`. -/
structure ChangeInvisibleTimeResponseHeader where
  pop_time : Nat
  revive_qid : Int
  invisible_time : Int
deriving Repr, DecidableEq

/-- The topic configuration consulted by validation (`read_queue_nums`). -/
structure TopicConfig where
  read_queue_nums : Nat
deriving Repr, DecidableEq

/-- A checkpoint record as handed to `append_check_point`: the request
coordinates plus revive queue id, capture time and source broker name. -/
structure CkRecord where
  topic : String
  queue_id : Int
  offset : Int
  invisible_time : Int
  revive_qid : Int
  pop_time : Nat
  broker_name : String
deriving Repr, DecidableEq

/-- The durable revive-topic message built on the acknowledgment durable
path (the `MessageExtBrokerInner` fields the source sets). -/
structure DurableAckMessage where
  topic : String
  body : AckMsg
  queue_id : Int
  tags : String
  born_timestamp : Nat
  delay_time_ms : Nat
  uniq_id : String
deriving Repr, DecidableEq

/-- The observable side effects of one request: checkpoint appends, the two
statistics counters, whether `ack_origin` was entered, durable ack-message
appends, and whether a failing durable-ack status was logged. -/
structure Effects where
  ck_appends : List CkRecord
  broker_ack_nums : Nat
  group_ack_incs : List (String × String)
  ack_origin_invoked : Bool
  durable_acks : List DurableAckMessage
  ack_put_error_logged : Bool
deriving Repr, DecidableEq

/-- No side effects yet. -/
def Effects.initial : Effects :=
  { ck_appends := []
    broker_ack_nums := 0
    group_ack_incs := []
    ack_origin_invoked := false
    durable_acks := []
    ack_put_error_logged := false }

/-- The external collaborators as oracles: topic-config lookup, store
offset range, the store outcome of the checkpoint append, the ack-merge
buffer's accept/decline answer, the store outcome of the durable ack
append, the two `get_current_millis` reads, and the startup-derived revive
topic. -/
structure Env where
  topic_config : Option TopicConfig
  min_offset : Int
  max_offset : Int
  ck_status : PutMessageStatus
  add_ack : Bool
  ack_put_status : PutMessageStatus
  now : Nat
  born_now : Nat
  revive_topic : String
deriving Repr, DecidableEq

/-- The handler's terminal outcome: a propagated `Err` (from `?`), the
`unimplemented!` panic of the ordered branch, or exactly one response. -/
inductive HandlerOutcome where
  | err (e : String)
  | panicUnimplemented (what : String)
  | resp (code : ResponseCode) (remark : Option String)
      (header : Option ChangeInvisibleTimeResponseHeader)
deriving Repr, DecidableEq

/-- Code of a response outcome, if the outcome is a response. -/
def HandlerOutcome.code? : HandlerOutcome → Option ResponseCode
  | .resp c _ _ => some c
  | _ => none

/-- Outcome plus accumulated side effects. -/
structure HandlerResult where
  outcome : HandlerOutcome
  effects : Effects
deriving Repr, DecidableEq

/-! ## The processor -/

/-- Modelled from the spec: `append_check_point` is left `unimplemented!`
in the examined source slice; §4.3 specifies that it "builds a checkpoint
record (see §3) with pop_time = now and queues it for durable append via
the external store, returning the store's outcome".  The store's outcome is
the oracle `env.ck_status`; the append is recorded as a side effect. -/
def append_check_point (env : Env) (rh : ChangeInvisibleTimeRequestHeader)
    (revive_qid : Int) (pop_time : Nat) (broker_name : String)
    (eff : Effects) : PutMessageStatus × Effects :=
  (env.ck_status,
   { eff with
      ck_appends := eff.ck_appends ++
        [{ topic := rh.topic
           queue_id := rh.queue_id
           offset := rh.offset
           invisible_time := rh.invisible_time
           revive_qid := revive_qid
           pop_time := pop_time
           broker_name := broker_name }] })

/-- `ChangeInvisibleTimeProcessor::ack_origin` (lines 250–312).  Builds the
`AckMsg` (each extra-info getter propagating its error via `?`), increments
both statistics counters, offers the record to the ack-merge buffer, and on
decline builds and durably appends the revive-topic message; a failing
durable-append status is logged only. -/
def ack_origin (env : Env) (rh : ChangeInvisibleTimeRequestHeader)
    (extra_info : List String) (eff : Effects) :
    Except String Unit × Effects :=
  match ExtraInfoUtil.get_ck_queue_offset extra_info with
  | .error e => (.error e, eff)
  | .ok start_offset =>
  match ExtraInfoUtil.get_pop_time extra_info with
  | .error e => (.error e, eff)
  | .ok pop_time =>
  match ExtraInfoUtil.get_broker_name extra_info with
  | .error e => (.error e, eff)
  | .ok broker_name =>
  let ack_msg : AckMsg :=
    { ack_offset := rh.offset
      start_offset := start_offset
      consumer_group := rh.consumer_group
      topic := rh.topic
      queue_id := rh.queue_id
      pop_time := pop_time
      broker_name := broker_name }
  match ExtraInfoUtil.get_revive_qid extra_info with
  | .error e => (.error e, eff)
  | .ok rq_id =>
  let eff :=
    { eff with
        broker_ack_nums := eff.broker_ack_nums + 1
        group_ack_incs := eff.group_ack_incs ++ [(rh.consumer_group, rh.topic)] }
  if env.add_ack then (.ok (), eff)
  else
    match ExtraInfoUtil.get_pop_time extra_info with
    | .error e => (.error e, eff)
    | .ok pop_time2 =>
    match ExtraInfoUtil.get_invisible_time extra_info with
    | .error e => (.error e, eff)
    | .ok invisible_time =>
    let inner : DurableAckMessage :=
      { topic := env.revive_topic
        body := ack_msg
        queue_id := rq_id
        tags := ACK_TAG
        born_timestamp := env.born_now
        delay_time_ms := intAsU64 (pop_time2 + invisible_time)
        uniq_id := gen_ack_unique_id ack_msg }
    let eff :=
      { eff with
          durable_acks := eff.durable_acks ++ [inner]
          ack_put_error_logged :=
            eff.ack_put_error_logged || !ackPutStatusAcceptable env.ack_put_status }
    (.ok (), eff)

/-- `ChangeInvisibleTimeProcessor::process_request_inner` (lines 116–248):
topic-existence, queue-id-range and offset-range validation, extra-info
split, ordered-branch dispatch (`unimplemented!` in the source slice),
checkpoint append with acceptance test, best-effort `ack_origin` whose
error is logged only, and the success response. -/
def process_request_inner (env : Env) (rh : ChangeInvisibleTimeRequestHeader) :
    HandlerResult :=
  match env.topic_config with
  | none =>
    { outcome := .resp .topicNotExist
        (some ("topic[" ++ rh.topic ++ "] not exist, apply first please!")) none
      effects := .initial }
  | some topic_config =>
    if rh.queue_id ≥ (topic_config.read_queue_nums : Int) ∨ rh.queue_id < 0 then
      { outcome := .resp .messageIllegal (some "queueId is illegal") none
        effects := .initial }
    else if rh.offset < env.min_offset ∨ rh.offset > env.max_offset then
      { outcome := .resp .noMessage
          (some "request offset not in queue offset range") none
        effects := .initial }
    else
      match ExtraInfoUtil.split rh.extra_info with
      | .error e => { outcome := .err e, effects := .initial }
      | .ok extra_info =>
        if ExtraInfoUtil.is_order extra_info then
          { outcome := .panicUnimplemented "process_change_invisible_time_for_order"
            effects := .initial }
        else
          let now := env.now
          match ExtraInfoUtil.get_revive_qid extra_info with
          | .error e => { outcome := .err e, effects := .initial }
          | .ok revive_qid =>
            match ExtraInfoUtil.get_broker_name extra_info with
            | .error e => { outcome := .err e, effects := .initial }
            | .ok broker_name =>
              let ck := append_check_point env rh revive_qid now broker_name .initial
              if ckStatusAcceptable ck.1 then
                let eff := { ck.2 with ack_origin_invoked := true }
                let ackRes := ack_origin env rh extra_info eff
                { outcome := .resp .success none
                    (some { pop_time := now
                            revive_qid := revive_qid
                            invisible_time := rh.invisible_time })
                  effects := ackRes.2 }
              else
                { outcome := .resp .systemError
                    (some ("append check point error, status: " ++ ck.1.toText)) none
                  effects := ck.2 }

/-! ## Round-trip lemmas for the decimal codec -/

theorem charDigit_digitChar (n : Nat) (h : n < 10) :
    charDigit (digitChar n) = some n := by
  interval_cases n <;> rfl

theorem natDigits_ne_nil (n : Nat) : natDigits n ≠ [] := by
  unfold natDigits
  split
  · simp
  · simp

theorem parseAcc_append (acc : Nat) (l₁ l₂ : List Char) :
    parseAcc acc (l₁ ++ l₂) =
      match parseAcc acc l₁ with
      | none => none
      | some a => parseAcc a l₂ := by
  induction l₁ generalizing acc with
  | nil => simp [parseAcc]
  | cons c cs ih =>
    simp only [List.cons_append, parseAcc]
    cases charDigit c with
    | none => simp
    | some d => simp [ih]

theorem parseAcc_natDigits (n acc : Nat) :
    parseAcc acc (natDigits n) = some (acc * 10 ^ (natDigits n).length + n) := by
  induction n using Nat.strong_induction_on generalizing acc with
  | _ n ih =>
    unfold natDigits
    split
    case isTrue h =>
      simp [parseAcc, charDigit_digitChar n h]
    case isFalse h =>
      rw [parseAcc_append]
      have hdiv : n / 10 < n := Nat.div_lt_self (by omega) (by omega)
      rw [ih (n / 10) hdiv acc]
      have hmod : n % 10 < 10 := Nat.mod_lt _ (by omega)
      simp only [parseAcc, charDigit_digitChar (n % 10) hmod, List.length_append,
        List.length_singleton]
      congr 1
      have := Nat.div_add_mod n 10
      ring_nf
      omega

theorem parseNatChars_natDigits (n : Nat) :
    parseNatChars (natDigits n) = some n := by
  unfold parseNatChars
  split
  next heq => exact absurd heq (natDigits_ne_nil n)
  next c cs heq =>
    simpa using parseAcc_natDigits n 0

theorem digitChar_toNat (n : Nat) (h : n < 10) : (digitChar n).toNat = 48 + n := by
  interval_cases n <;> rfl

theorem natDigits_head_is_digit (n : Nat) (c : Char) (cs : List Char)
    (h : natDigits n = c :: cs) : ∃ m, m < 10 ∧ c = digitChar m := by
  induction n using Nat.strong_induction_on generalizing c cs with
  | _ n ih =>
    unfold natDigits at h
    split at h
    case isTrue hn =>
      simp only [List.cons.injEq] at h
      exact ⟨n, hn, h.1.symm⟩
    case isFalse hn =>
      match hl : natDigits (n / 10) with
      | [] => exact absurd hl (natDigits_ne_nil _)
      | d :: ds =>
        rw [hl] at h
        simp only [List.cons_append, List.cons.injEq] at h
        obtain ⟨m, hm, hdm⟩ := ih (n / 10) (Nat.div_lt_self (by omega) (by omega)) d ds hl
        exact ⟨m, hm, h.1.symm.trans hdm⟩

theorem natDigits_head_not_sign (n : Nat) (c : Char) (cs : List Char)
    (h : natDigits n = c :: cs) : c.toNat ≠ 45 ∧ c.toNat ≠ 43 := by
  obtain ⟨m, hm, hcm⟩ := natDigits_head_is_digit n c cs h
  subst hcm
  rw [digitChar_toNat m hm]
  omega

theorem parseIntChars_natDigits (n : Nat) :
    parseIntChars (natDigits n) = some (n : Int) := by
  match hl : natDigits n with
  | [] => exact absurd hl (natDigits_ne_nil n)
  | c :: cs =>
    show (if c.toNat = 45 then Option.map (fun m : Nat => -(m : Int)) (parseNatChars cs)
          else if c.toNat = 43 then Option.map (fun m : Nat => (m : Int)) (parseNatChars cs)
          else Option.map (fun m : Nat => (m : Int)) (parseNatChars (c :: cs))) = some (n : Int)
    rw [if_neg (natDigits_head_not_sign n c cs hl).1]
    rw [if_neg (natDigits_head_not_sign n c cs hl).2]
    rw [← hl, parseNatChars_natDigits]
    rfl

theorem parseIntStr_intToStr (i : Int) :
    parseIntStr (intToStr i) = some i := by
  unfold parseIntStr intToStr
  split
  case isTrue h =>
    show parseIntChars (Char.ofNat 45 :: natDigits i.natAbs) = some i
    simp only [parseIntChars]
    rw [if_pos (by decide : (Char.ofNat 45).toNat = 45)]
    rw [parseNatChars_natDigits]
    simp only [Option.map_some']
    congr 1
    omega
  case isFalse h =>
    unfold natToStr
    show parseIntChars (natDigits i.natAbs) = some i
    rw [parseIntChars_natDigits]
    congr 1
    omega

theorem parseI32_intToStr (i : Int) (h₁ : -2147483648 ≤ i) (h₂ : i ≤ 2147483647) :
    parseI32 (intToStr i) = some i := by
  unfold parseI32
  have h : parseIntChars (intToStr i).data = some i := parseIntStr_intToStr i
  rw [h]
  simp [h₁, h₂]

theorem parseBoolStr_boolToStr (b : Bool) :
    parseBoolStr (boolToStr b) = some b := by
  cases b <;> rfl

/-! ## Lookup facts about the query-consumer-offset wire map -/

theorem qco_to_map_lookups (cg tp : String) (q : Int) (sz : Option Bool)
    (trh : Option TopicRequestHeader) :
    (QueryConsumerOffsetRequestHeader.to_map ⟨cg, tp, q, sz, trh⟩).get?
        QueryConsumerOffsetRequestHeader.CONSUMER_GROUP = some cg
    ∧ (QueryConsumerOffsetRequestHeader.to_map ⟨cg, tp, q, sz, trh⟩).get?
        QueryConsumerOffsetRequestHeader.TOPIC = some tp
    ∧ (QueryConsumerOffsetRequestHeader.to_map ⟨cg, tp, q, sz, trh⟩).get?
        QueryConsumerOffsetRequestHeader.QUEUE_ID = some (intToStr q)
    ∧ (QueryConsumerOffsetRequestHeader.to_map ⟨cg, tp, q, sz, trh⟩).get?
        QueryConsumerOffsetRequestHeader.SET_ZERO_IF_NOT_FOUND
          = Option.map boolToStr sz := by
  cases sz <;> cases trh <;>
    simp [QueryConsumerOffsetRequestHeader.to_map, Map.insert, Map.get?, Map.extend,
      Map.empty, TopicRequestHeader.to_map,
      QueryConsumerOffsetRequestHeader.CONSUMER_GROUP,
      QueryConsumerOffsetRequestHeader.TOPIC,
      QueryConsumerOffsetRequestHeader.QUEUE_ID,
      QueryConsumerOffsetRequestHeader.SET_ZERO_IF_NOT_FOUND]

/-- C8: for every `QueryConsumerOffsetRequestHeader` value, decoding the
map produced by `to_map` via `FromMap::from` succeeds and restores the
`consumer_group`, `topic`, `queue_id` and `set_zero_if_not_found` fields:
the round trip through the wire map is lossless for these fields. -/
theorem c8_query_offset_header_roundtrip (h : QueryConsumerOffsetRequestHeader)
    (h₁ : -2147483648 ≤ h.queue_id) (h₂ : h.queue_id ≤ 2147483647) :
    ∃ h2, QueryConsumerOffsetRequestHeader.from_map h.to_map =
        QueryConsumerOffsetRequestHeader.DecodeOutcome.ok h2
      ∧ h2.consumer_group = h.consumer_group
      ∧ h2.topic = h.topic
      ∧ h2.queue_id = h.queue_id
      ∧ h2.set_zero_if_not_found = h.set_zero_if_not_found := by
  obtain ⟨cg, tp, q, sz, trh⟩ := h
  simp only at h₁ h₂
  obtain ⟨l1, l2, l3, l4⟩ := qco_to_map_lookups cg tp q sz trh
  refine ⟨{ consumer_group := cg, topic := tp, queue_id := q
            set_zero_if_not_found := sz
            topic_request_header := some (TopicRequestHeader.from_map
              (QueryConsumerOffsetRequestHeader.to_map ⟨cg, tp, q, sz, trh⟩)) },
          ?_, rfl, rfl, rfl, rfl⟩
  simp only [QueryConsumerOffsetRequestHeader.from_map, l1, l2, l3, l4,
    parseI32_intToStr q h₁ h₂, Option.getD_some]
  cases sz <;> simp [parseBoolStr_boolToStr]

/-- C8 witness: the round trip at a concrete header. -/
theorem c8_query_offset_header_roundtrip_witness :
    ∃ h2, QueryConsumerOffsetRequestHeader.from_map
        (QueryConsumerOffsetRequestHeader.to_map ⟨"G", "T", 7, some true, none⟩) =
        QueryConsumerOffsetRequestHeader.DecodeOutcome.ok h2
      ∧ h2.consumer_group = "G"
      ∧ h2.topic = "T"
      ∧ h2.queue_id = 7
      ∧ h2.set_zero_if_not_found = some true :=
  c8_query_offset_header_roundtrip ⟨"G", "T", 7, some true, none⟩
    (by decide) (by decide)

/-- C9: `FromMap::from` for `QueryConsumerOffsetRequestHeader` returns
without panicking exactly when the `queueId` key is absent or its value
parses as an i32; a present but unparsable `queueId` panics (the parse is
unwrapped) and an `Err` is never returned. -/
theorem c9_from_map_panics_on_bad_queue_id (m : Map) :
    (QueryConsumerOffsetRequestHeader.from_map m =
        QueryConsumerOffsetRequestHeader.DecodeOutcome.panic
      ↔ ∃ s, m.get? QueryConsumerOffsetRequestHeader.QUEUE_ID = some s
          ∧ parseI32 s = none)
    ∧ ∀ e, QueryConsumerOffsetRequestHeader.from_map m ≠
        QueryConsumerOffsetRequestHeader.DecodeOutcome.err e := by
  constructor
  · cases hq : m.get? QueryConsumerOffsetRequestHeader.QUEUE_ID with
    | none => simp [QueryConsumerOffsetRequestHeader.from_map, hq]
    | some s =>
      cases hp : parseI32 s with
      | none => simp [QueryConsumerOffsetRequestHeader.from_map, hq, hp]
      | some v => simp [QueryConsumerOffsetRequestHeader.from_map, hq, hp]
  · intro e
    cases hq : m.get? QueryConsumerOffsetRequestHeader.QUEUE_ID with
    | none => simp [QueryConsumerOffsetRequestHeader.from_map, hq]
    | some s =>
      cases hp : parseI32 s with
      | none => simp [QueryConsumerOffsetRequestHeader.from_map, hq, hp]
      | some v => simp [QueryConsumerOffsetRequestHeader.from_map, hq, hp]

/-- C9 witness: a map whose `queueId` value is unparsable makes the decode
panic. -/
theorem c9_from_map_panics_on_bad_queue_id_witness :
    QueryConsumerOffsetRequestHeader.from_map (Map.empty.insert "queueId" "abc") =
      QueryConsumerOffsetRequestHeader.DecodeOutcome.panic :=
  (c9_from_map_panics_on_bad_queue_id (Map.empty.insert "queueId" "abc")).1.mpr
    ⟨"abc", by rfl, by rfl⟩

/-- C10: the decode never fails on account of missing keys — whenever the
`queueId` entry is absent or parsable, decoding succeeds, with an absent
`consumerGroup` or `topic` defaulting to the empty string, an absent
`queueId` defaulting to 0, and an absent or unparsable `setZeroIfNotFound`
defaulting to `none`. -/
theorem c10_missing_keys_silently_defaulted (m : Map)
    (hq : m.get? QueryConsumerOffsetRequestHeader.QUEUE_ID = none
        ∨ ∃ s v, m.get? QueryConsumerOffsetRequestHeader.QUEUE_ID = some s
            ∧ parseI32 s = some v) :
    ∃ h, QueryConsumerOffsetRequestHeader.from_map m =
        QueryConsumerOffsetRequestHeader.DecodeOutcome.ok h
      ∧ (m.get? QueryConsumerOffsetRequestHeader.CONSUMER_GROUP = none →
          h.consumer_group = "")
      ∧ (m.get? QueryConsumerOffsetRequestHeader.TOPIC = none → h.topic = "")
      ∧ (m.get? QueryConsumerOffsetRequestHeader.QUEUE_ID = none → h.queue_id = 0)
      ∧ ((m.get? QueryConsumerOffsetRequestHeader.SET_ZERO_IF_NOT_FOUND = none
            ∨ ∃ s, m.get? QueryConsumerOffsetRequestHeader.SET_ZERO_IF_NOT_FOUND = some s
                ∧ parseBoolStr s = none)
          → h.set_zero_if_not_found = none) := by
  rcases hq with hq | ⟨s, v, hs, hv⟩
  · refine ⟨{ consumer_group := (m.get? QueryConsumerOffsetRequestHeader.CONSUMER_GROUP).getD ""
              topic := (m.get? QueryConsumerOffsetRequestHeader.TOPIC).getD ""
              queue_id := 0
              set_zero_if_not_found :=
                (m.get? QueryConsumerOffsetRequestHeader.SET_ZERO_IF_NOT_FOUND).bind parseBoolStr
              topic_request_header := some (TopicRequestHeader.from_map m) },
            by simp [QueryConsumerOffsetRequestHeader.from_map, hq], ?_, ?_, ?_, ?_⟩
    · intro hcg; simp [hcg]
    · intro htp; simp [htp]
    · intro _; rfl
    · rintro (hsz | ⟨s, hsz, hps⟩) <;> simp [hsz]
      simp [hps]
  · refine ⟨{ consumer_group := (m.get? QueryConsumerOffsetRequestHeader.CONSUMER_GROUP).getD ""
              topic := (m.get? QueryConsumerOffsetRequestHeader.TOPIC).getD ""
              queue_id := v
              set_zero_if_not_found :=
                (m.get? QueryConsumerOffsetRequestHeader.SET_ZERO_IF_NOT_FOUND).bind parseBoolStr
              topic_request_header := some (TopicRequestHeader.from_map m) },
            by simp [QueryConsumerOffsetRequestHeader.from_map, hs, hv], ?_, ?_, ?_, ?_⟩
    · intro hcg; simp [hcg]
    · intro htp; simp [htp]
    · intro hq; rw [hq] at hs; exact absurd hs (by simp)
    · rintro (hsz | ⟨s2, hsz, hps⟩) <;> simp [hsz]
      simp [hps]

/-! ## Behaviour lemmas for the processor -/

theorem intAsU64_eq_toNat (i : Int) (h₁ : 0 ≤ i) (h₂ : i < 2 ^ 64) :
    intAsU64 i = i.toNat := by
  unfold intAsU64
  rw [Int.emod_eq_of_lt h₁ h₂]

/-- `ack_origin` never touches the checkpoint-append list or the
invocation flag of the effects it threads. -/
theorem ack_origin_preserves_ck (env : Env) (rh : ChangeInvisibleTimeRequestHeader)
    (extra : List String) (eff : Effects) :
    (ack_origin env rh extra eff).2.ck_appends = eff.ck_appends
    ∧ (ack_origin env rh extra eff).2.ack_origin_invoked = eff.ack_origin_invoked := by
  unfold ack_origin
  repeat' split
  all_goals constructor <;> rfl

/-- Full characterization of `ack_origin` when every extra-info getter
succeeds: counters are always incremented; the buffer's answer selects the
fast path (no durable message) or the durable path (exactly one revive
message). -/
theorem ack_origin_spec (env : Env) (rh : ChangeInvisibleTimeRequestHeader)
    (extra : List String) (eff : Effects) (s0 pt : Int) (bn : String) (rq iv : Int)
    (h1 : ExtraInfoUtil.get_ck_queue_offset extra = .ok s0)
    (h2 : ExtraInfoUtil.get_pop_time extra = .ok pt)
    (h3 : ExtraInfoUtil.get_broker_name extra = .ok bn)
    (h4 : ExtraInfoUtil.get_revive_qid extra = .ok rq)
    (h5 : ExtraInfoUtil.get_invisible_time extra = .ok iv) :
    ack_origin env rh extra eff =
      (if env.add_ack then
        (Except.ok (),
         { eff with
            broker_ack_nums := eff.broker_ack_nums + 1
            group_ack_incs := eff.group_ack_incs ++ [(rh.consumer_group, rh.topic)] })
      else
        (Except.ok (),
         { eff with
            broker_ack_nums := eff.broker_ack_nums + 1
            group_ack_incs := eff.group_ack_incs ++ [(rh.consumer_group, rh.topic)]
            durable_acks := eff.durable_acks ++
              [{ topic := env.revive_topic
                 body := ⟨rh.offset, s0, rh.consumer_group, rh.topic, rh.queue_id, pt, bn⟩
                 queue_id := rq
                 tags := ACK_TAG
                 born_timestamp := env.born_now
                 delay_time_ms := intAsU64 (pt + iv)
                 uniq_id := gen_ack_unique_id
                   ⟨rh.offset, s0, rh.consumer_group, rh.topic, rh.queue_id, pt, bn⟩ }]
            ack_put_error_logged :=
              eff.ack_put_error_logged || !ackPutStatusAcceptable env.ack_put_status })) := by
  simp only [ack_origin, h1, h2, h3, h4, h5]

/-- Reduction of `process_request_inner` on the normal (unordered) branch
once validation, split and the two pre-checkpoint getters succeed: the
checkpoint is appended, and the checkpoint-status test selects either the
ack-and-success continuation or the `SystemError` abort. -/
theorem process_normal_branch (env : Env) (rh : ChangeInvisibleTimeRequestHeader)
    (tc : TopicConfig) (toks : List String) (rq : Int) (bn : String)
    (htc : env.topic_config = some tc)
    (hq1 : 0 ≤ rh.queue_id) (hq2 : rh.queue_id < (tc.read_queue_nums : Int))
    (ho1 : env.min_offset ≤ rh.offset) (ho2 : rh.offset ≤ env.max_offset)
    (hsplit : ExtraInfoUtil.split rh.extra_info = .ok toks)
    (horder : ExtraInfoUtil.is_order toks = false)
    (hrq : ExtraInfoUtil.get_revive_qid toks = .ok rq)
    (hbn : ExtraInfoUtil.get_broker_name toks = .ok bn) :
    process_request_inner env rh =
      if ckStatusAcceptable env.ck_status then
        { outcome := .resp .success none
            (some { pop_time := env.now, revive_qid := rq,
                    invisible_time := rh.invisible_time })
          effects := (ack_origin env rh toks
            { ck_appends := [⟨rh.topic, rh.queue_id, rh.offset, rh.invisible_time,
                              rq, env.now, bn⟩]
              broker_ack_nums := 0
              group_ack_incs := []
              ack_origin_invoked := true
              durable_acks := []
              ack_put_error_logged := false }).2 }
      else
        { outcome := .resp .systemError
            (some ("append check point error, status: " ++ env.ck_status.toText)) none
          effects := { ck_appends := [⟨rh.topic, rh.queue_id, rh.offset,
                         rh.invisible_time, rq, env.now, bn⟩]
                       broker_ack_nums := 0
                       group_ack_incs := []
                       ack_origin_invoked := false
                       durable_acks := []
                       ack_put_error_logged := false } } := by
  simp only [process_request_inner, htc, hsplit, horder, hrq, hbn, append_check_point,
    Effects.initial, Bool.false_eq_true, if_false]
  rw [if_neg (by omega), if_neg (by omega)]
  simp

/-- Whenever `ack_origin` has been entered, the checkpoint append already
happened and its status passed the acceptance test: the write-ahead
ordering of the handler. -/
theorem ack_invoked_requires_acceptable_ck (env : Env)
    (rh : ChangeInvisibleTimeRequestHeader) :
    (process_request_inner env rh).effects.ack_origin_invoked = true →
      ckStatusAcceptable env.ck_status = true
      ∧ (process_request_inner env rh).effects.ck_appends ≠ [] := by
  unfold process_request_inner
  split
  · simp [Effects.initial]
  · split
    · simp [Effects.initial]
    · split
      · simp [Effects.initial]
      · split
        · simp [Effects.initial]
        next extra_info heq =>
          split
          · simp [Effects.initial]
          · split
            · simp [Effects.initial]
            next rq heq2 =>
              split
              · simp [Effects.initial]
              next bn heq3 =>
                dsimp only
                split
                next hacc =>
                  intro _
                  refine ⟨by simpa [append_check_point] using hacc, ?_⟩
                  rw [(ack_origin_preserves_ck env rh extra_info _).1]
                  simp [append_check_point, Effects.initial]
                next hacc =>
                  simp [append_check_point, Effects.initial]

/-- `ack_origin` fails before any side effect when the checkpoint-queue-offset
getter fails. -/
theorem ack_origin_ckq_error (env : Env) (rh : ChangeInvisibleTimeRequestHeader)
    (extra : List String) (eff : Effects) (e : String)
    (h : ExtraInfoUtil.get_ck_queue_offset extra = .error e) :
    ack_origin env rh extra eff = (.error e, eff) := by
  unfold ack_origin
  simp [h]

/-- C1: on the normal (unordered) branch, a hard-failure checkpoint status
makes the handler return `SystemError` echoing the store status and
`ack_origin` is never invoked; moreover, for every request whatsoever, the
acknowledgment attempt only ever happens after a checkpoint append whose
status passed the acceptance test. -/
theorem c1_hard_ck_failure_aborts_before_ack (env : Env)
    (rh : ChangeInvisibleTimeRequestHeader) (tc : TopicConfig)
    (toks : List String) (rq : Int) (bn : String)
    (htc : env.topic_config = some tc)
    (hq1 : 0 ≤ rh.queue_id) (hq2 : rh.queue_id < (tc.read_queue_nums : Int))
    (ho1 : env.min_offset ≤ rh.offset) (ho2 : rh.offset ≤ env.max_offset)
    (hsplit : ExtraInfoUtil.split rh.extra_info = .ok toks)
    (horder : ExtraInfoUtil.is_order toks = false)
    (hrq : ExtraInfoUtil.get_revive_qid toks = .ok rq)
    (hbn : ExtraInfoUtil.get_broker_name toks = .ok bn)
    (hck : ckStatusAcceptable env.ck_status = false) :
    (process_request_inner env rh).outcome =
      .resp .systemError
        (some ("append check point error, status: " ++ env.ck_status.toText)) none
    ∧ (process_request_inner env rh).effects.ack_origin_invoked = false
    ∧ ∀ env' rh', (process_request_inner env' rh').effects.ack_origin_invoked = true →
        ckStatusAcceptable env'.ck_status = true
        ∧ (process_request_inner env' rh').effects.ck_appends ≠ [] := by
  have h := process_normal_branch env rh tc toks rq bn htc hq1 hq2 ho1 ho2 hsplit
    horder hrq hbn
  rw [if_neg (by simp [hck])] at h
  rw [h]
  exact ⟨rfl, rfl, fun env' rh' hinv => ack_invoked_requires_acceptable_ck env' rh' hinv⟩

/-- C1 witness: a concrete hard failure (`OsPageCacheBusy`). -/
theorem c1_hard_ck_failure_aborts_before_ack_witness :
    (process_request_inner
        ⟨some ⟨8⟩, 0, 100, .osPageCacheBusy, true, .putOk, 111, 222, "rt"⟩
        ⟨"g", "T", 0, 50, 30000, "false 3 b1 50 1000 30000"⟩).outcome =
      .resp .systemError
        (some ("append check point error, status: "
          ++ PutMessageStatus.toText .osPageCacheBusy)) none
    ∧ (process_request_inner
        ⟨some ⟨8⟩, 0, 100, .osPageCacheBusy, true, .putOk, 111, 222, "rt"⟩
        ⟨"g", "T", 0, 50, 30000, "false 3 b1 50 1000 30000"⟩).effects.ack_origin_invoked
        = false
    ∧ ∀ env' rh', (process_request_inner env' rh').effects.ack_origin_invoked = true →
        ckStatusAcceptable env'.ck_status = true
        ∧ (process_request_inner env' rh').effects.ck_appends ≠ [] :=
  c1_hard_ck_failure_aborts_before_ack
    ⟨some ⟨8⟩, 0, 100, .osPageCacheBusy, true, .putOk, 111, 222, "rt"⟩
    ⟨"g", "T", 0, 50, 30000, "false 3 b1 50 1000 30000"⟩
    ⟨8⟩ ["false", "3", "b1", "50", "1000", "30000"] 3 "b1"
    rfl (by decide) (by decide) (by decide) (by decide)
    (by rfl) (by rfl) (by rfl) (by rfl) (by rfl)

/-- C2 counterexample: a `ServiceNotAvailable` checkpoint outcome does NOT
let the handler proceed to the acknowledgment and a success response — it
aborts with `SystemError` and `ack_origin` is never invoked. -/
theorem c2_counterexample :
    process_request_inner
        ⟨some ⟨8⟩, 0, 100, .serviceNotAvailable, true, .putOk, 111, 222, "rt"⟩
        ⟨"g", "T", 0, 50, 30000, "false 3 b1 50 1000 30000"⟩ =
      ⟨.resp .systemError
          (some "append check point error, status: ServiceNotAvailable") none,
        ⟨[⟨"T", 0, 50, 30000, 3, 111, "b1"⟩], 0, [], false, [], false⟩⟩ := by
  rfl

/-- C2 (amended): a service-unavailable checkpoint outcome is a hard
failure — the handler aborts with `SystemError` and never invokes
`ack_origin`; `ServiceNotAvailable` is accepted only by the
acknowledgment durable-append status test. -/
theorem c2_service_unavailable_hard_for_ck (env : Env)
    (rh : ChangeInvisibleTimeRequestHeader) (tc : TopicConfig)
    (toks : List String) (rq : Int) (bn : String)
    (htc : env.topic_config = some tc)
    (hq1 : 0 ≤ rh.queue_id) (hq2 : rh.queue_id < (tc.read_queue_nums : Int))
    (ho1 : env.min_offset ≤ rh.offset) (ho2 : rh.offset ≤ env.max_offset)
    (hsplit : ExtraInfoUtil.split rh.extra_info = .ok toks)
    (horder : ExtraInfoUtil.is_order toks = false)
    (hrq : ExtraInfoUtil.get_revive_qid toks = .ok rq)
    (hbn : ExtraInfoUtil.get_broker_name toks = .ok bn)
    (hck : env.ck_status = .serviceNotAvailable) :
    (process_request_inner env rh).outcome =
      .resp .systemError
        (some ("append check point error, status: "
          ++ PutMessageStatus.toText .serviceNotAvailable)) none
    ∧ (process_request_inner env rh).effects.ack_origin_invoked = false
    ∧ ckStatusAcceptable .serviceNotAvailable = false
    ∧ ackPutStatusAcceptable .serviceNotAvailable = true := by
  have h := process_normal_branch env rh tc toks rq bn htc hq1 hq2 ho1 ho2 hsplit
    horder hrq hbn
  rw [hck] at h
  rw [if_neg (by decide)] at h
  rw [h]
  exact ⟨rfl, rfl, rfl, rfl⟩

/-- C2 witness: the amended behaviour at a concrete request. -/
theorem c2_service_unavailable_hard_for_ck_witness :
    (process_request_inner
        ⟨some ⟨4⟩, 10, 90, .serviceNotAvailable, false, .putOk, 500, 600, "rt2"⟩
        ⟨"g2", "T2", 1, 20, 5000, "false 2 bk 20 400 5000"⟩).outcome =
      .resp .systemError
        (some ("append check point error, status: "
          ++ PutMessageStatus.toText .serviceNotAvailable)) none
    ∧ (process_request_inner
        ⟨some ⟨4⟩, 10, 90, .serviceNotAvailable, false, .putOk, 500, 600, "rt2"⟩
        ⟨"g2", "T2", 1, 20, 5000, "false 2 bk 20 400 5000"⟩).effects.ack_origin_invoked
        = false
    ∧ ckStatusAcceptable .serviceNotAvailable = false
    ∧ ackPutStatusAcceptable .serviceNotAvailable = true :=
  c2_service_unavailable_hard_for_ck
    ⟨some ⟨4⟩, 10, 90, .serviceNotAvailable, false, .putOk, 500, 600, "rt2"⟩
    ⟨"g2", "T2", 1, 20, 5000, "false 2 bk 20 400 5000"⟩
    ⟨4⟩ ["false", "2", "bk", "20", "400", "5000"] 2 "bk"
    rfl (by decide) (by decide) (by decide) (by decide)
    (by rfl) (by rfl) (by rfl) (by rfl) (by rfl)

/-- C3 counterexample: a request whose `checkpoint_queue_offset` token is
unparsable is NOT rejected — the checkpoint is appended and a success
response returned (only the acknowledgment is silently abandoned). -/
theorem c3_counterexample :
    process_request_inner
        ⟨some ⟨8⟩, 0, 100, .putOk, true, .putOk, 111, 222, "rt"⟩
        ⟨"g", "T", 0, 50, 30000, "false 3 b1 xx 1000 30000"⟩ =
      ⟨.resp .success none (some ⟨111, 3, 30000⟩),
        ⟨[⟨"T", 0, 50, 30000, 3, 111, "b1"⟩], 0, [], true, [], false⟩⟩ := by
  rfl

/-- C3 (amended): decode failures of the fields read before the checkpoint
(split, revive_queue_id, broker_name) reject the whole request with no side
effects; a failure of the checkpoint_queue_offset field, which is read only
by the acknowledgment, does not reject the request — the checkpoint is
appended and a success response returned, while the acknowledgment is
abandoned with no counters and no ack record. -/
theorem c3_decode_failure_scope (env : Env)
    (rh : ChangeInvisibleTimeRequestHeader) (tc : TopicConfig)
    (toks : List String) (rq : Int) (bn : String) (e : String)
    (htc : env.topic_config = some tc)
    (hq1 : 0 ≤ rh.queue_id) (hq2 : rh.queue_id < (tc.read_queue_nums : Int))
    (ho1 : env.min_offset ≤ rh.offset) (ho2 : rh.offset ≤ env.max_offset) :
    (ExtraInfoUtil.split rh.extra_info = .error e →
        process_request_inner env rh = ⟨.err e, Effects.initial⟩)
    ∧ (ExtraInfoUtil.split rh.extra_info = .ok toks →
        ExtraInfoUtil.is_order toks = false →
        ExtraInfoUtil.get_revive_qid toks = .error e →
        process_request_inner env rh = ⟨.err e, Effects.initial⟩)
    ∧ (ExtraInfoUtil.split rh.extra_info = .ok toks →
        ExtraInfoUtil.is_order toks = false →
        ExtraInfoUtil.get_revive_qid toks = .ok rq →
        ExtraInfoUtil.get_broker_name toks = .error e →
        process_request_inner env rh = ⟨.err e, Effects.initial⟩)
    ∧ (ExtraInfoUtil.split rh.extra_info = .ok toks →
        ExtraInfoUtil.is_order toks = false →
        ExtraInfoUtil.get_revive_qid toks = .ok rq →
        ExtraInfoUtil.get_broker_name toks = .ok bn →
        ckStatusAcceptable env.ck_status = true →
        ExtraInfoUtil.get_ck_queue_offset toks = .error e →
        process_request_inner env rh =
          ⟨.resp .success none (some ⟨env.now, rq, rh.invisible_time⟩),
            ⟨[⟨rh.topic, rh.queue_id, rh.offset, rh.invisible_time, rq, env.now, bn⟩],
              0, [], true, [], false⟩⟩) := by
  refine ⟨?_, ?_, ?_, ?_⟩
  · intro hse
    simp only [process_request_inner, htc, hse]
    rw [if_neg (by omega), if_neg (by omega)]
  · intro hsplit horder hrqe
    simp only [process_request_inner, htc, hsplit, horder, Bool.false_eq_true,
      if_false, hrqe]
    rw [if_neg (by omega), if_neg (by omega)]
  · intro hsplit horder hrq hbne
    simp only [process_request_inner, htc, hsplit, horder, Bool.false_eq_true,
      if_false, hrq, hbne]
    rw [if_neg (by omega), if_neg (by omega)]
  · intro hsplit horder hrq hbn hacc hckq
    have h := process_normal_branch env rh tc toks rq bn htc hq1 hq2 ho1 ho2 hsplit
      horder hrq hbn
    rw [if_pos hacc] at h
    rw [h, ack_origin_ckq_error env rh toks _ e hckq]

/-- C3 witness: all four implications at concrete requests. -/
theorem c3_decode_failure_scope_witness :
    process_request_inner
        ⟨some ⟨8⟩, 0, 100, .putOk, false, .putOk, 111, 222, "rt"⟩
        ⟨"g", "T", 0, 50, 30000, "false 3 b1 yy 1000 30000"⟩ =
      ⟨.resp .success none (some ⟨111, 3, 30000⟩),
        ⟨[⟨"T", 0, 50, 30000, 3, 111, "b1"⟩], 0, [], true, [], false⟩⟩ :=
  ((c3_decode_failure_scope
      ⟨some ⟨8⟩, 0, 100, .putOk, false, .putOk, 111, 222, "rt"⟩
      ⟨"g", "T", 0, 50, 30000, "false 3 b1 yy 1000 30000"⟩
      ⟨8⟩ ["false", "3", "b1", "yy", "1000", "30000"] 3 "b1"
      "extra info field malformed: ckQueueOffset"
      rfl (by decide) (by decide) (by decide) (by decide)).2.2.2)
    (by rfl) (by rfl) (by rfl) (by rfl) (by rfl) (by rfl)

/-- C4: a valid unordered request whose checkpoint append is acceptable
gets exactly one success response echoing the request's invisible_time, the
checkpoint-capture timestamp as pop_time, and the decoded revive queue id —
whatever `ack_origin` does (the buffer answer, the durable-append status
and the acknowledgment-only extra-info fields are unconstrained). -/
theorem c4_success_response_formed (env : Env)
    (rh : ChangeInvisibleTimeRequestHeader) (tc : TopicConfig)
    (toks : List String) (rq : Int) (bn : String)
    (htc : env.topic_config = some tc)
    (hq1 : 0 ≤ rh.queue_id) (hq2 : rh.queue_id < (tc.read_queue_nums : Int))
    (ho1 : env.min_offset ≤ rh.offset) (ho2 : rh.offset ≤ env.max_offset)
    (hsplit : ExtraInfoUtil.split rh.extra_info = .ok toks)
    (horder : ExtraInfoUtil.is_order toks = false)
    (hrq : ExtraInfoUtil.get_revive_qid toks = .ok rq)
    (hbn : ExtraInfoUtil.get_broker_name toks = .ok bn)
    (hck : ckStatusAcceptable env.ck_status = true) :
    (process_request_inner env rh).outcome =
      .resp .success none
        (some { pop_time := env.now, revive_qid := rq,
                invisible_time := rh.invisible_time })
    ∧ (process_request_inner env rh).effects.ck_appends =
        [⟨rh.topic, rh.queue_id, rh.offset, rh.invisible_time, rq, env.now, bn⟩] := by
  have h := process_normal_branch env rh tc toks rq bn htc hq1 hq2 ho1 ho2 hsplit
    horder hrq hbn
  rw [if_pos hck] at h
  rw [h]
  refine ⟨rfl, ?_⟩
  rw [(ack_origin_preserves_ck env rh toks _).1]

/-- C4 witness: a concrete valid request with a declined ack buffer and a
failing durable-ack status still yields the success response. -/
theorem c4_success_response_formed_witness :
    (process_request_inner
        ⟨some ⟨8⟩, 0, 100, .flushDiskTimeout, false, .unknownError, 111, 222, "rt"⟩
        ⟨"g", "T", 0, 50, 30000, "false 3 b1 50 1000 30000"⟩).outcome =
      .resp .success none
        (some { pop_time := 111, revive_qid := 3, invisible_time := 30000 })
    ∧ (process_request_inner
        ⟨some ⟨8⟩, 0, 100, .flushDiskTimeout, false, .unknownError, 111, 222, "rt"⟩
        ⟨"g", "T", 0, 50, 30000, "false 3 b1 50 1000 30000"⟩).effects.ck_appends =
        [⟨"T", 0, 50, 30000, 3, 111, "b1"⟩] :=
  c4_success_response_formed
    ⟨some ⟨8⟩, 0, 100, .flushDiskTimeout, false, .unknownError, 111, 222, "rt"⟩
    ⟨"g", "T", 0, 50, 30000, "false 3 b1 50 1000 30000"⟩
    ⟨8⟩ ["false", "3", "b1", "50", "1000", "30000"] 3 "b1"
    rfl (by decide) (by decide) (by decide) (by decide)
    (by rfl) (by rfl) (by rfl) (by rfl) (by rfl)

/-- C5: when every extra-info getter succeeds, an accepted ack-merge offer
produces no durable revive message, while a declined offer appends exactly
one, addressed to the revive topic, routed to the revive queue id, tagged
with the acknowledgment marker, carrying the deterministically derived
unique id, and delayed until pop_time + invisible_time. -/
theorem c5_ack_merge_vs_durable (env : Env)
    (rh : ChangeInvisibleTimeRequestHeader) (extra : List String)
    (eff : Effects) (s0 pt : Int) (bn : String) (rq iv : Int)
    (h1 : ExtraInfoUtil.get_ck_queue_offset extra = .ok s0)
    (h2 : ExtraInfoUtil.get_pop_time extra = .ok pt)
    (h3 : ExtraInfoUtil.get_broker_name extra = .ok bn)
    (h4 : ExtraInfoUtil.get_revive_qid extra = .ok rq)
    (h5 : ExtraInfoUtil.get_invisible_time extra = .ok iv)
    (hr1 : 0 ≤ pt + iv) (hr2 : pt + iv < 2 ^ 64) :
    (env.add_ack = true →
        (ack_origin env rh extra eff).2.durable_acks = eff.durable_acks
        ∧ (ack_origin env rh extra eff).1 = .ok ())
    ∧ (env.add_ack = false →
        (ack_origin env rh extra eff).2.durable_acks = eff.durable_acks ++
          [{ topic := env.revive_topic
             body := ⟨rh.offset, s0, rh.consumer_group, rh.topic, rh.queue_id, pt, bn⟩
             queue_id := rq
             tags := ACK_TAG
             born_timestamp := env.born_now
             delay_time_ms := (pt + iv).toNat
             uniq_id := gen_ack_unique_id
               ⟨rh.offset, s0, rh.consumer_group, rh.topic, rh.queue_id, pt, bn⟩ }]) := by
  have h := ack_origin_spec env rh extra eff s0 pt bn rq iv h1 h2 h3 h4 h5
  constructor
  · intro hb
    rw [h, if_pos hb]
    exact ⟨rfl, rfl⟩
  · intro hb
    rw [h, if_neg (by simp [hb])]
    simp [intAsU64_eq_toNat _ hr1 hr2]

/-- C5 witness: concrete fast-path and durable-path facts. -/
theorem c5_ack_merge_vs_durable_witness :
    ((⟨some ⟨8⟩, 0, 100, .putOk, false, .putOk, 111, 222, "rt"⟩ : Env).add_ack = true →
        (ack_origin ⟨some ⟨8⟩, 0, 100, .putOk, false, .putOk, 111, 222, "rt"⟩
            ⟨"g", "T", 0, 50, 30000, "x"⟩
            ["false", "3", "b1", "50", "1000", "30000"] Effects.initial).2.durable_acks
          = Effects.initial.durable_acks
        ∧ (ack_origin ⟨some ⟨8⟩, 0, 100, .putOk, false, .putOk, 111, 222, "rt"⟩
            ⟨"g", "T", 0, 50, 30000, "x"⟩
            ["false", "3", "b1", "50", "1000", "30000"] Effects.initial).1 = .ok ())
    ∧ ((⟨some ⟨8⟩, 0, 100, .putOk, false, .putOk, 111, 222, "rt"⟩ : Env).add_ack = false →
        (ack_origin ⟨some ⟨8⟩, 0, 100, .putOk, false, .putOk, 111, 222, "rt"⟩
            ⟨"g", "T", 0, 50, 30000, "x"⟩
            ["false", "3", "b1", "50", "1000", "30000"] Effects.initial).2.durable_acks
          = Effects.initial.durable_acks ++
            [{ topic := "rt"
               body := ⟨50, 50, "g", "T", 0, 1000, "b1"⟩
               queue_id := 3
               tags := ACK_TAG
               born_timestamp := 222
               delay_time_ms := ((1000 : Int) + 30000).toNat
               uniq_id := gen_ack_unique_id ⟨50, 50, "g", "T", 0, 1000, "b1"⟩ }]) :=
  c5_ack_merge_vs_durable
    ⟨some ⟨8⟩, 0, 100, .putOk, false, .putOk, 111, 222, "rt"⟩
    ⟨"g", "T", 0, 50, 30000, "x"⟩
    ["false", "3", "b1", "50", "1000", "30000"] Effects.initial
    50 1000 "b1" 3 30000
    (by rfl) (by rfl) (by rfl) (by rfl) (by rfl) (by decide) (by decide)

/-- C6: given an existing topic and a valid queue id, the handler answers
`NoMessage` exactly when the offset lies strictly outside the inclusive
store range, and a `NoMessage` rejection performs no side effects. -/
theorem c6_no_message_iff_offset_out_of_range (env : Env)
    (rh : ChangeInvisibleTimeRequestHeader) (tc : TopicConfig)
    (htc : env.topic_config = some tc)
    (hq1 : 0 ≤ rh.queue_id) (hq2 : rh.queue_id < (tc.read_queue_nums : Int)) :
    ((process_request_inner env rh).outcome.code? = some .noMessage
      ↔ rh.offset < env.min_offset ∨ rh.offset > env.max_offset)
    ∧ ((process_request_inner env rh).outcome.code? = some .noMessage →
        (process_request_inner env rh).effects = Effects.initial) := by
  by_cases ho : rh.offset < env.min_offset ∨ rh.offset > env.max_offset
  · have h : process_request_inner env rh =
        ⟨.resp .noMessage (some "request offset not in queue offset range") none,
          Effects.initial⟩ := by
      simp only [process_request_inner, htc]
      rw [if_neg (by omega), if_pos ho]
    rw [h]
    exact ⟨⟨fun _ => ho, fun _ => rfl⟩, fun _ => rfl⟩
  · have h : (process_request_inner env rh).outcome.code? ≠ some .noMessage := by
      simp only [process_request_inner, htc]
      rw [if_neg (by omega), if_neg ho]
      split
      · simp [HandlerOutcome.code?]
      · split
        · simp [HandlerOutcome.code?]
        · split
          · simp [HandlerOutcome.code?]
          · split
            · simp [HandlerOutcome.code?]
            · split
              · simp [HandlerOutcome.code?]
              · simp [HandlerOutcome.code?]
    exact ⟨⟨fun hc => absurd hc h, fun hc => absurd hc ho⟩, fun hc => absurd hc h⟩

/-- C6 witness: an in-range boundary offset is not `NoMessage`; shifting it
out of range yields `NoMessage` with no side effects. -/
theorem c6_no_message_iff_offset_out_of_range_witness :
    (((process_request_inner
        ⟨some ⟨8⟩, 100, 200, .putOk, true, .putOk, 111, 222, "rt"⟩
        ⟨"g", "T", 0, 250, 30000, "false 3 b1 50 1000 30000"⟩).outcome.code?
          = some .noMessage
      ↔ (250 : Int) < 100 ∨ (250 : Int) > 200)
    ∧ ((process_request_inner
        ⟨some ⟨8⟩, 100, 200, .putOk, true, .putOk, 111, 222, "rt"⟩
        ⟨"g", "T", 0, 250, 30000, "false 3 b1 50 1000 30000"⟩).outcome.code?
          = some .noMessage →
        (process_request_inner
          ⟨some ⟨8⟩, 100, 200, .putOk, true, .putOk, 111, 222, "rt"⟩
          ⟨"g", "T", 0, 250, 30000, "false 3 b1 50 1000 30000"⟩).effects
          = Effects.initial)) :=
  c6_no_message_iff_offset_out_of_range
    ⟨some ⟨8⟩, 100, 200, .putOk, true, .putOk, 111, 222, "rt"⟩
    ⟨"g", "T", 0, 250, 30000, "false 3 b1 50 1000 30000"⟩
    ⟨8⟩ rfl (by decide) (by decide)

/-- C7 counterexample: an invocation of `ack_origin` whose
checkpoint-queue-offset token is unparsable returns an error without
incrementing either acknowledgment counter. -/
theorem c7_counterexample :
    ack_origin ⟨some ⟨8⟩, 0, 100, .putOk, true, .putOk, 111, 222, "rt"⟩
        ⟨"g", "T", 0, 50, 30000, ""⟩
        ["false", "3", "b1", "xx", "1000", "30000"] Effects.initial =
      (.error "extra info field malformed: ckQueueOffset", Effects.initial) := by
  rfl

/-- C7 (amended): both acknowledgment counters are incremented by exactly 1
whenever the extra-info fields needed to build the ack record and the revive
queue id decode successfully — regardless of the buffer answer, the durable
append status, or a later invisible-time decode failure; if the
checkpoint-queue-offset getter fails, `ack_origin` returns the error with
no effects at all. -/
theorem c7_counters_incremented_when_record_built (env : Env)
    (rh : ChangeInvisibleTimeRequestHeader) (extra : List String)
    (eff : Effects) (s0 pt : Int) (bn : String) (rq : Int)
    (h1 : ExtraInfoUtil.get_ck_queue_offset extra = .ok s0)
    (h2 : ExtraInfoUtil.get_pop_time extra = .ok pt)
    (h3 : ExtraInfoUtil.get_broker_name extra = .ok bn)
    (h4 : ExtraInfoUtil.get_revive_qid extra = .ok rq) :
    (ack_origin env rh extra eff).2.broker_ack_nums = eff.broker_ack_nums + 1
    ∧ (ack_origin env rh extra eff).2.group_ack_incs
        = eff.group_ack_incs ++ [(rh.consumer_group, rh.topic)]
    ∧ ∀ extra' e, ExtraInfoUtil.get_ck_queue_offset extra' = .error e →
        ack_origin env rh extra' eff = (.error e, eff) := by
  refine ⟨?_, ?_, fun extra' e he => ack_origin_ckq_error env rh extra' eff e he⟩
  · unfold ack_origin
    simp only [h1, h2, h3, h4]
    split
    · rfl
    · split <;> rfl
  · unfold ack_origin
    simp only [h1, h2, h3, h4]
    split
    · rfl
    · split <;> rfl

/-- C7 witness: counters incremented at a concrete declined-buffer request
whose invisible-time token is even unparsable. -/
theorem c7_counters_incremented_when_record_built_witness :
    (ack_origin ⟨some ⟨8⟩, 0, 100, .putOk, false, .putOk, 111, 222, "rt"⟩
        ⟨"g", "T", 0, 50, 30000, ""⟩
        ["false", "3", "b1", "50", "1000", "zz"] Effects.initial).2.broker_ack_nums
      = Effects.initial.broker_ack_nums + 1
    ∧ (ack_origin ⟨some ⟨8⟩, 0, 100, .putOk, false, .putOk, 111, 222, "rt"⟩
        ⟨"g", "T", 0, 50, 30000, ""⟩
        ["false", "3", "b1", "50", "1000", "zz"] Effects.initial).2.group_ack_incs
      = Effects.initial.group_ack_incs ++ [("g", "T")]
    ∧ ∀ extra' e, ExtraInfoUtil.get_ck_queue_offset extra' = .error e →
        ack_origin ⟨some ⟨8⟩, 0, 100, .putOk, false, .putOk, 111, 222, "rt"⟩
          ⟨"g", "T", 0, 50, 30000, ""⟩ extra' Effects.initial = (.error e, Effects.initial) :=
  c7_counters_incremented_when_record_built
    ⟨some ⟨8⟩, 0, 100, .putOk, false, .putOk, 111, 222, "rt"⟩
    ⟨"g", "T", 0, 50, 30000, ""⟩
    ["false", "3", "b1", "50", "1000", "zz"] Effects.initial
    50 1000 "b1" 3
    (by rfl) (by rfl) (by rfl) (by rfl)

/-- C10 witness: the empty map decodes with every field defaulted. -/
theorem c10_missing_keys_silently_defaulted_witness :
    ∃ h, QueryConsumerOffsetRequestHeader.from_map Map.empty =
        QueryConsumerOffsetRequestHeader.DecodeOutcome.ok h
      ∧ (Map.empty.get? QueryConsumerOffsetRequestHeader.CONSUMER_GROUP = none →
          h.consumer_group = "")
      ∧ (Map.empty.get? QueryConsumerOffsetRequestHeader.TOPIC = none → h.topic = "")
      ∧ (Map.empty.get? QueryConsumerOffsetRequestHeader.QUEUE_ID = none → h.queue_id = 0)
      ∧ ((Map.empty.get? QueryConsumerOffsetRequestHeader.SET_ZERO_IF_NOT_FOUND = none
            ∨ ∃ s, Map.empty.get? QueryConsumerOffsetRequestHeader.SET_ZERO_IF_NOT_FOUND
                  = some s ∧ parseBoolStr s = none)
          → h.set_zero_if_not_found = none) :=
  c10_missing_keys_silently_defaulted Map.empty (Or.inl rfl)

end RocketMQ
